import Mathlib

/-!
Shallow embedding of `src/app.py`, a Flask application that authenticates
users against a PostgreSQL store and proxies three map-provider HTTP
endpoints (forward geocode, reverse geocode, nearby POI search).

Modelling conventions:
* `request.args.get(name, '')` / `request.form.get(name)` are modelled as
  `Option String` arguments (`none` = parameter absent).
* Python truthiness of an optional string (`None` and the empty string are
  both falsy) is `truthy`.
* Python `float` literals parsed from provider strings are modelled as exact
  rationals via `parseFloat` (sign, integer part, optional fractional part,
  surrounding whitespace), mirroring `float(s)` on the inputs the code meets.
* The outbound `requests.get(url, params, timeout)` call is reified as an
  `UpstreamRequest` value; a route's result records the call it made (if any)
  in its `call` field, so "the Gateway was never invoked" is `call = none`.
* The provider's JSON body is modelled by per-route record types carrying
  exactly the fields the handler reads; `dict.get(k, d)` becomes an `Option`
  field read with `getD`.  A transport-level failure (timeout, connection
  error, non-JSON body) is the `HttpOutcome.exn` constructor carrying the
  exception description, matching the `except Exception as e` handler.
* `jsonify(d)` is `Resp.json 200 body`; `jsonify(d), 400` is `Resp.json 400`.
  The redirect issued by `flask_login.login_required` for an anonymous
  request is the dedicated constructor `Resp.redirectLogin`.
-/

namespace MapApi

/-- Python truthiness of an optional string: `None` and `''` are falsy. -/
def truthy : Option String → Bool
  | none => false
  | some s => !(s == "")

/-- Numeric value of a list of decimal digit characters. -/
def digitsVal (cs : List Char) : Nat :=
  cs.foldl (fun acc c => acc * 10 + (c.toNat - 48)) 0

/-- A non-empty all-digit character list. -/
def allDigits (cs : List Char) : Bool :=
  !cs.isEmpty && cs.all (fun c => c.isDigit)

/-- Split a character list at every occurrence of the separator, keeping
empty pieces, as Python `str.split(sep)` does. -/
def splitOnChar (sep : Char) : List Char → List (List Char)
  | [] => [[]]
  | c :: rest =>
    let r := splitOnChar sep rest
    if c = sep then [] :: r
    else
      match r with
      | h :: t => (c :: h) :: t
      | [] => [[c]]

/-- Strip leading and trailing whitespace characters. -/
def trimChars (cs : List Char) : List Char :=
  ((cs.dropWhile Char.isWhitespace).reverse.dropWhile Char.isWhitespace).reverse

/-- Unsigned decimal parse: digits with an optional fractional part, as
accepted by Python `float` on plain decimal input; the value is the exact
rational numerator over the power of ten of the fraction length. -/
def parseUnsignedChars (cs : List Char) : Option ℚ :=
  match splitOnChar '.' cs with
  | [ip] => if allDigits ip then some (mkRat (digitsVal ip) 1) else none
  | [ip, fp] =>
    if (allDigits ip || ip.isEmpty) && (allDigits fp || fp.isEmpty)
        && !(ip.isEmpty && fp.isEmpty) then
      some (mkRat (digitsVal ip * 10 ^ fp.length + digitsVal fp)
        (10 ^ fp.length))
    else none
  | _ => none

/-- Model of Python `float(s)` on the decimal strings the provider sends:
optional surrounding whitespace, optional sign, digits and fraction.
`none` models the `ValueError` raised on a malformed string. -/
def parseFloat (s : String) : Option ℚ :=
  match trimChars s.data with
  | '-' :: rest => (parseUnsignedChars rest).map (fun q => -q)
  | '+' :: rest => parseUnsignedChars rest
  | cs => parseUnsignedChars cs

/-- Model of Python `s.split(',')` (split on every comma, no limit). -/
def splitComma (s : String) : List String :=
  (splitOnChar ',' s.data).map (fun cs => String.mk cs)

/-- A point of interest as consumed by `search_poi`: the handler reads these
six keys from each provider POI dict. -/
structure Poi where
  id : String
  name : String
  type : String
  address : String
  location : String
  distance : String
deriving DecidableEq, Repr

/-- JSON response bodies the application produces. -/
inductive Body where
  /-- Missing-parameter body: a single error field, served with status 400. -/
  | paramError (msg : String)
  /-- Failure envelope: success false plus an error message. -/
  | fail (msg : String)
  /-- Forward-geocode success envelope: success true, location lng/lat,
  formatted_address, district. -/
  | geoOk (lng lat : ℚ) (formatted_address district : String)
  /-- Reverse-geocode success envelope: success true, address, province,
  city, district. -/
  | regeoOk (address province city district : String)
  /-- POI-search success envelope: success true plus the poi list. -/
  | poiOk (pois : List Poi)
  /-- Health-check body: status, database, configuration, key states. -/
  | health (database configuration amap_web_key amap_service_key : String)
deriving DecidableEq, Repr

/-- HTTP responses the application produces. -/
inductive Resp where
  /-- A JSON body with an HTTP status code. -/
  | json (status : Nat) (body : Body)
  /-- The unauthenticated-access signal issued by `login_required`
  (redirect to the login view). -/
  | redirectLogin
  /-- An explicit `redirect(target)`. -/
  | redirect (target : String)
  /-- `render_template(template)` together with the flash messages queued
  during the request (message, category). -/
  | render (template : String) (flashes : List (String × String))
deriving DecidableEq, Repr

/-- The flask-login session state of the incoming request. -/
inductive Session where
  | anonymous
  | authenticated (userId : Nat)
deriving DecidableEq, Repr

/-- An outbound HTTP call to the map provider: URL, query parameters and the
timeout passed to `requests.get`. -/
structure UpstreamRequest where
  url : String
  params : List (String × String)
  timeout : Nat
deriving DecidableEq, Repr

/-- Result of running one API route: the response plus the upstream call the
route performed, if any. -/
structure RouteOutcome where
  resp : Resp
  call : Option UpstreamRequest
deriving DecidableEq, Repr

/-- Outcome of the outbound HTTP call: either a parsed JSON body of the
expected shape, or a raised exception (timeout, connection failure,
malformed body) carrying its description. -/
inductive HttpOutcome (α : Type) where
  | ok (data : α)
  | exn (msg : String)

/-- One entry of the provider's geocode candidate list, with the fields the
handler reads (`district` via `.get` with default). -/
structure GeoCandidate where
  location : String
  formatted_address : String
  district : Option String
deriving DecidableEq, Repr

/-- Provider body for the forward-geocode endpoint. -/
structure GeoData where
  status : String
  geocodes : List GeoCandidate
  info : Option String
deriving DecidableEq, Repr

/-- The `addressComponent` object of a reverse-geocode response; all three
fields are read via `.get` with default. -/
structure AddressComponent where
  province : Option String
  city : Option String
  district : Option String
deriving DecidableEq, Repr

/-- The `regeocode` object of a reverse-geocode response. -/
structure Regeo where
  addressComponent : AddressComponent
  formatted_address : String
deriving DecidableEq, Repr

/-- Provider body for the reverse-geocode endpoint. -/
structure ReGeoData where
  status : String
  regeocode : Regeo
  info : Option String
deriving DecidableEq, Repr

/-- Provider body for the place/around endpoint (`pois` read via `.get`
with default empty list). -/
structure PoiData where
  status : String
  pois : Option (List Poi)
  info : Option String
deriving DecidableEq, Repr

/-- The `requests.get` call built by the `geocode` route. -/
def geocodeRequest (address key : String) : UpstreamRequest :=
  { url := "https://restapi.amap.com/v3/geocode/geo"
    params := [("address", address), ("key", key), ("output", "JSON")]
    timeout := 10 }

/-- The `requests.get` call built by the `reverse_geocode` route. -/
def regeoRequest (lng lat key : String) : UpstreamRequest :=
  { url := "https://restapi.amap.com/v3/geocode/regeo"
    params := [("location", lng ++ "," ++ lat), ("key", key),
               ("output", "JSON"), ("extensions", "base")]
    timeout := 10 }

/-- The `requests.get` call built by the `search_poi` route. -/
def poiRequest (keywords location key : String) : UpstreamRequest :=
  { url := "https://restapi.amap.com/v3/place/around"
    params := [("keywords", keywords), ("location", location), ("key", key),
               ("output", "JSON"), ("radius", "5000"), ("offset", "20")]
    timeout := 10 }

/-- The body of the `geocode` try-block after the JSON parse: inspect the
status and candidate list, take the first candidate, split its location on
commas and convert both pieces with `float`.  `Except.error` models an
exception raised inside the try-block (tuple-unpack or float conversion),
which the handler converts to the failure envelope. -/
def geocode_handle (data : GeoData) : Except String Body :=
  match data.geocodes with
  | g0 :: _ =>
    if data.status = "1" then
      match splitComma g0.location with
      | [lngS, latS] =>
        match parseFloat lngS, parseFloat latS with
        | some lng, some lat =>
          .ok (.geoOk lng lat g0.formatted_address (g0.district.getD ""))
        | _, _ => .error "could not convert string to float"
      | _ => .error "values to unpack mismatch (expected 2)"
    else .ok (.fail (data.info.getD "地址解析失败"))
  | [] => .ok (.fail (data.info.getD "地址解析失败"))

/-- The `/geocode` route.  Arguments: session state, the `address` query
parameter, the configured service key, and the outcome of the upstream call
were one to be made. -/
def geocode (sess : Session) (address : Option String) (key : Option String)
    (upstream : HttpOutcome GeoData) : RouteOutcome :=
  match sess with
  | .anonymous => ⟨.redirectLogin, none⟩
  | .authenticated _ =>
    let a := address.getD ""
    if a = "" then ⟨.json 400 (.paramError "地址参数缺失"), none⟩
    else if !truthy key then ⟨.json 200 (.fail "高德API配置缺失"), none⟩
    else
      let req := geocodeRequest a (key.getD "")
      match upstream with
      | .exn msg => ⟨.json 200 (.fail msg), some req⟩
      | .ok data =>
        match geocode_handle data with
        | .ok body => ⟨.json 200 body, some req⟩
        | .error msg => ⟨.json 200 (.fail msg), some req⟩

/-- The body of the `reverse_geocode` try-block after the JSON parse. -/
def reverse_geocode_handle (data : ReGeoData) : Body :=
  if data.status = "1" then
    .regeoOk data.regeocode.formatted_address
      (data.regeocode.addressComponent.province.getD "")
      (data.regeocode.addressComponent.city.getD "")
      (data.regeocode.addressComponent.district.getD "")
  else .fail (data.info.getD "逆地理编码失败")

/-- The `/reverse_geocode` route. -/
def reverse_geocode (sess : Session) (lng lat : Option String)
    (key : Option String) (upstream : HttpOutcome ReGeoData) : RouteOutcome :=
  match sess with
  | .anonymous => ⟨.redirectLogin, none⟩
  | .authenticated _ =>
    let lo := lng.getD ""
    let la := lat.getD ""
    if lo = "" ∨ la = "" then ⟨.json 400 (.paramError "坐标参数缺失"), none⟩
    else if !truthy key then ⟨.json 200 (.fail "高德API配置缺失"), none⟩
    else
      let req := regeoRequest lo la (key.getD "")
      match upstream with
      | .exn msg => ⟨.json 200 (.fail msg), some req⟩
      | .ok data => ⟨.json 200 (reverse_geocode_handle data), some req⟩

/-- The POI list constructed by the `search_poi` loop: one output dict per
upstream POI, copying the six fields. -/
def buildPois (ps : List Poi) : List Poi :=
  ps.map (fun p =>
    { id := p.id, name := p.name, type := p.type, address := p.address,
      location := p.location, distance := p.distance })

/-- The body of the `search_poi` try-block after the JSON parse. -/
def search_poi_handle (data : PoiData) : Body :=
  if data.status = "1" then .poiOk (buildPois (data.pois.getD []))
  else .fail (data.info.getD "搜索失败")

/-- The `/search_poi` route. -/
def search_poi (sess : Session) (keywords location : Option String)
    (key : Option String) (upstream : HttpOutcome PoiData) : RouteOutcome :=
  match sess with
  | .anonymous => ⟨.redirectLogin, none⟩
  | .authenticated _ =>
    let kw := keywords.getD ""
    let lc := location.getD ""
    if kw = "" ∨ lc = "" then ⟨.json 400 (.paramError "参数缺失"), none⟩
    else if !truthy key then ⟨.json 200 (.fail "高德API配置缺失"), none⟩
    else
      let req := poiRequest kw lc (key.getD "")
      match upstream with
      | .exn msg => ⟨.json 200 (.fail msg), some req⟩
      | .ok data => ⟨.json 200 (search_poi_handle data), some req⟩

/-- Environment configuration read at module load: the two map-provider keys
and the four required database settings (the port has a default and is not
part of the required check). -/
structure Config where
  amap_web_key : Option String
  amap_service_key : Option String
  db_host : Option String
  db_database : Option String
  db_user : Option String
  db_password : Option String
deriving DecidableEq, Repr

/-- The list of missing configurations assembled by `check_environment`, in
source order: the two keys, then the aggregated database entry when any of
host, database, user or password is falsy. -/
def missing_list (c : Config) : List String :=
  (if truthy c.amap_web_key then [] else ["AMAP_WEB_KEY"]) ++
  (if truthy c.amap_service_key then [] else ["AMAP_SERVICE_KEY"]) ++
  (if truthy c.db_host && truthy c.db_database && truthy c.db_user
      && truthy c.db_password then [] else ["数据库配置"])

/-- `check_environment`: prints a warning naming the missing configurations
and returns whether none are missing. -/
def check_environment (c : Config) : Bool :=
  (missing_list c).isEmpty

/-- What the process does after the `__main__` startup sequence. -/
inductive StartupResult where
  /-- Startup was aborted before serving, with a diagnostic. -/
  | aborted (diagnostic : String)
  /-- `app.run` was reached and the server is serving; the flag records
  whether `check_environment` passed. -/
  | running (configOk : Bool)
deriving DecidableEq, Repr

/-- Whether a startup result is an abort. -/
def StartupResult.isAborted : StartupResult → Bool
  | .aborted _ => true
  | .running _ => false

/-- The `__main__` block: prints banners, evaluates `check_environment`,
prints a warning on failure, and unconditionally calls `app.run`. -/
def main_startup (c : Config) : StartupResult :=
  .running (check_environment c)

/-- A row of the `users` table. -/
structure UserRow where
  id : Nat
  username : String
  email : String
  password_hash : String
deriving DecidableEq, Repr

/-- The `users` table, in insertion order. -/
abbrev Store := List UserRow

/-- The identity object built from a fetched row (`User(id, username,
email)`). -/
structure User where
  id : Nat
  username : String
  email : String
deriving DecidableEq, Repr

/-- `SELECT ... FROM users WHERE username = %s` followed by `fetchone()`:
the first row with the given username; a missing form field compares like
SQL NULL and matches nothing. -/
def find_by_username (s : Store) (username : Option String) : Option UserRow :=
  match username with
  | none => none
  | some u => s.find? (fun r => r.username == u)

/-- `SELECT id FROM users WHERE username = %s OR email = %s` has a row, and
equally the condition under which an INSERT violates one of the two UNIQUE
constraints. -/
def conflicts (s : Store) (username email : String) : Bool :=
  s.any (fun r => r.username == username || r.email == email)

/-- Connections opened and connections explicitly closed during one
operation. -/
structure ConnStats where
  opened : Nat
  closed : Nat
deriving DecidableEq, Repr

/-- Result of the `load_user` user loader: the restored identity (if any)
and its connection accounting. -/
structure LoadResult where
  user : Option User
  stats : ConnStats
deriving DecidableEq, Repr

/-- The flask-login user loader: connect (returning None on connection
failure), select by id inside try/except/finally, close cursor and
connection in the finally block.  `queryFail` injects an exception raised
by the query, carrying its description. -/
def load_user (dbUp : Bool) (queryFail : Option String) (s : Store)
    (user_id : Nat) : LoadResult :=
  if !dbUp then ⟨none, ⟨0, 0⟩⟩
  else
    match queryFail with
    | some _ => ⟨none, ⟨1, 1⟩⟩
    | none =>
      match s.find? (fun r => r.id == user_id) with
      | some r => ⟨some ⟨r.id, r.username, r.email⟩, ⟨1, 1⟩⟩
      | none => ⟨none, ⟨1, 1⟩⟩

/-- The target of `url_for` for the index and login views. -/
def url_index : String := "/"

/-- The login page URL. -/
def url_login : String := "/login"

/-- Result of the `login` POST handler: response, resulting session, and
connection accounting. -/
structure LoginResult where
  resp : Resp
  sess : Session
  stats : ConnStats
deriving DecidableEq, Repr

/-- The POST branch of the `/login` route.  `chk` models
`check_password_hash(stored_hash, password)`; `queryFail` injects an
exception raised inside the try-block, carrying its description. -/
def login (sess : Session) (username password nextArg : Option String)
    (dbUp : Bool) (queryFail : Option String) (s : Store)
    (chk : String → Option String → Bool) : LoginResult :=
  match sess with
  | .authenticated _ => ⟨.redirect url_index, sess, ⟨0, 0⟩⟩
  | .anonymous =>
    if !dbUp then
      ⟨.render "login.html" [("数据库连接失败", "error")], sess, ⟨0, 0⟩⟩
    else
      match queryFail with
      | some m =>
        ⟨.render "login.html" [("登录失败: " ++ m, "error")], sess, ⟨1, 1⟩⟩
      | none =>
        match find_by_username s username with
        | some r =>
          if chk r.password_hash password then
            ⟨.redirect (nextArg.getD url_index), .authenticated r.id, ⟨1, 1⟩⟩
          else
            ⟨.render "login.html" [("用户名或密码错误", "error")], sess, ⟨1, 1⟩⟩
        | none =>
          ⟨.render "login.html" [("用户名或密码错误", "error")], sess, ⟨1, 1⟩⟩

/-- Result of the `register` POST handler: response, the row the handler
committed (if any), and connection accounting. -/
structure RegisterResult where
  resp : Resp
  inserted : Option UserRow
  stats : ConnStats
deriving DecidableEq, Repr

/-- The exception text of a UNIQUE-constraint violation raised by the
INSERT (modelled after the PostgreSQL diagnostic). -/
def uniqueViolationMsg : String := "duplicate key value violates unique constraint"

/-- The POST branch of the `/register` route.  Validation short-circuits in
source order; the duplicate pre-check runs against the store `s`; the
INSERT then runs against `s ++ race`, where `race` holds rows committed by
concurrent requests between the pre-check and the INSERT, and a constraint
violation there is caught, rolled back and flashed as a generic
registration failure.  `hashOf` models `generate_password_hash`. -/
def register (sess : Session) (username email password confirm_password :
    Option String) (dbUp : Bool) (s race : Store) (newId : Nat)
    (hashOf : String → String) : RegisterResult :=
  match sess with
  | .authenticated _ => ⟨.redirect url_index, none, ⟨0, 0⟩⟩
  | .anonymous =>
    let u := username.getD ""
    let e := email.getD ""
    let p := password.getD ""
    if u = "" ∨ e = "" ∨ p = "" then
      ⟨.render "register.html" [("请填写所有字段", "error")], none, ⟨0, 0⟩⟩
    else if p ≠ confirm_password.getD "" then
      ⟨.render "register.html" [("密码确认不匹配", "error")], none, ⟨0, 0⟩⟩
    else if p.length < 6 then
      ⟨.render "register.html" [("密码长度至少6位", "error")], none, ⟨0, 0⟩⟩
    else if !dbUp then
      ⟨.render "register.html" [("数据库连接失败", "error")], none, ⟨0, 0⟩⟩
    else if conflicts s u e then
      ⟨.render "register.html" [("用户名或邮箱已存在", "error")], none, ⟨1, 1⟩⟩
    else if conflicts (s ++ race) u e then
      ⟨.render "register.html" [("注册失败: " ++ uniqueViolationMsg, "error")],
        none, ⟨1, 1⟩⟩
    else
      ⟨.redirect url_login, some ⟨newId, u, e, hashOf p⟩, ⟨1, 1⟩⟩

/-- The `/health` route: probes the database by opening a connection (whose
handle is truthiness-tested and never closed), re-runs the configuration
check, and reports.  Returns the response and connection accounting. -/
def health_check (dbUp : Bool) (c : Config) : Resp × ConnStats :=
  (.json 200 (.health (if dbUp then "connected" else "disconnected")
      (if check_environment c then "ok" else "missing_configs")
      (if truthy c.amap_web_key then "configured" else "missing")
      (if truthy c.amap_service_key then "configured" else "missing")),
   ⟨if dbUp then 1 else 0, 0⟩)

/-- A sample user row, used as a concrete store inhabitant. -/
def aliceRow : UserRow := ⟨1, "alice", "alice@example.com", "hash1"⟩

/-- A second sample user row. -/
def bobRow : UserRow := ⟨1, "bob", "bob@example.com", "hash2"⟩

/-- A configuration with the web key missing and everything else set. -/
def cfgMissingKey : Config :=
  ⟨none, some "svc", some "h", some "db", some "u", some "pw"⟩

/-- A fully populated configuration. -/
def cfgFull : Config :=
  ⟨some "web", some "svc", some "h", some "db", some "u", some "pw"⟩

/-- Whether a body is one of the success envelopes. -/
def isSuccessBody : Body → Bool
  | .geoOk _ _ _ _ => true
  | .regeoOk _ _ _ _ => true
  | .poiOk _ => true
  | _ => false

/-- Whether a body is the failure envelope. -/
def isFailBody : Body → Bool
  | .fail _ => true
  | _ => false

/-- C1: for every request to the three API routes made without an
authenticated session, the response is the redirect-to-login signal and no
upstream Gateway call is made; since this holds for arbitrary query
parameters (including absent ones), the authentication gate fires strictly
before parameter validation. -/
theorem anonymous_gate_before_validation :
    (∀ a k up, geocode .anonymous a k up = ⟨.redirectLogin, none⟩) ∧
    (∀ lo la k up, reverse_geocode .anonymous lo la k up
      = ⟨.redirectLogin, none⟩) ∧
    (∀ kw lc k up, search_poi .anonymous kw lc k up
      = ⟨.redirectLogin, none⟩) :=
  ⟨fun _ _ _ => rfl, fun _ _ _ _ => rfl, fun _ _ _ _ => rfl⟩

/-- C2: every authenticated request to an API route that is missing a
required query parameter receives HTTP 400 with an error body, and the
upstream Gateway is not called. -/
theorem missing_param_rejected :
    (∀ uid k up, geocode (.authenticated uid) none k up
      = ⟨.json 400 (.paramError "地址参数缺失"), none⟩) ∧
    (∀ uid la k up, reverse_geocode (.authenticated uid) none la k up
      = ⟨.json 400 (.paramError "坐标参数缺失"), none⟩) ∧
    (∀ uid lo k up, reverse_geocode (.authenticated uid) lo none k up
      = ⟨.json 400 (.paramError "坐标参数缺失"), none⟩) ∧
    (∀ uid lc k up, search_poi (.authenticated uid) none lc k up
      = ⟨.json 400 (.paramError "参数缺失"), none⟩) ∧
    (∀ uid kw k up, search_poi (.authenticated uid) kw none k up
      = ⟨.json 400 (.paramError "参数缺失"), none⟩) := by
  refine ⟨fun uid k up => rfl, fun uid la k up => rfl, fun uid lo k up => ?_,
    fun uid lc k up => rfl, fun uid kw k up => ?_⟩
  · simp [reverse_geocode]
  · simp [search_poi]

/-- The geocode try-block either returns a success- or failure-shaped body,
or raises; it never produces anything outside the envelope set. -/
theorem geocode_handle_cases (d : GeoData) :
    (∃ b, geocode_handle d = .ok b ∧ (isSuccessBody b || isFailBody b) = true)
    ∨ (∃ m, geocode_handle d = .error m) := by
  unfold geocode_handle
  split
  · split
    · split
      · split
        · exact Or.inl ⟨_, rfl, rfl⟩
        · exact Or.inr ⟨_, rfl⟩
      · exact Or.inr ⟨_, rfl⟩
    · exact Or.inl ⟨_, rfl, rfl⟩
  · exact Or.inl ⟨_, rfl, rfl⟩

/-- A non-"1" provider status makes the geocode try-block return the
failure envelope carrying the provider info message or the fallback. -/
theorem geocode_handle_reject (d : GeoData) (h : d.status ≠ "1") :
    geocode_handle d = .ok (.fail (d.info.getD "地址解析失败")) := by
  unfold geocode_handle
  cases hg : d.geocodes with
  | nil => rfl
  | cons g0 gs =>
    dsimp only
    rw [if_neg h]

/-- The reverse-geocode try-block always returns a success- or
failure-shaped body. -/
theorem reverse_handle_shape (d : ReGeoData) :
    (isSuccessBody (reverse_geocode_handle d)
      || isFailBody (reverse_geocode_handle d)) = true := by
  unfold reverse_geocode_handle
  split <;> rfl

/-- The POI-search try-block always returns a success- or failure-shaped
body. -/
theorem poi_handle_shape (d : PoiData) :
    (isSuccessBody (search_poi_handle d)
      || isFailBody (search_poi_handle d)) = true := by
  unfold search_poi_handle
  split <;> rfl

/-- An authenticated, fully parameterized geocode request whose upstream
call raises produces the failure envelope with the exception description. -/
theorem geocode_auth_exn (uid : Nat) (a k : String) (ha : a ≠ "")
    (hk : k ≠ "") (m : String) :
    geocode (.authenticated uid) (some a) (some k) (.exn m)
      = ⟨.json 200 (.fail m), some (geocodeRequest a k)⟩ := by
  simp [geocode, ha, truthy, hk]

/-- An authenticated, fully parameterized geocode request whose try-block
returns a body serves that body with HTTP 200. -/
theorem geocode_auth_ok (uid : Nat) (a k : String) (ha : a ≠ "")
    (hk : k ≠ "") (d : GeoData) (b : Body)
    (hb : geocode_handle d = .ok b) :
    geocode (.authenticated uid) (some a) (some k) (.ok d)
      = ⟨.json 200 b, some (geocodeRequest a k)⟩ := by
  simp [geocode, ha, truthy, hk, hb]

/-- An authenticated, fully parameterized geocode request whose try-block
raises produces the failure envelope with the exception description. -/
theorem geocode_auth_err (uid : Nat) (a k : String) (ha : a ≠ "")
    (hk : k ≠ "") (d : GeoData) (m : String)
    (hm : geocode_handle d = .error m) :
    geocode (.authenticated uid) (some a) (some k) (.ok d)
      = ⟨.json 200 (.fail m), some (geocodeRequest a k)⟩ := by
  simp [geocode, ha, truthy, hk, hm]

/-- Authenticated reverse-geocode with parameters: transport exception
case. -/
theorem regeo_auth_exn (uid : Nat) (lo la k : String) (hlo : lo ≠ "")
    (hla : la ≠ "") (hk : k ≠ "") (m : String) :
    reverse_geocode (.authenticated uid) (some lo) (some la) (some k) (.exn m)
      = ⟨.json 200 (.fail m), some (regeoRequest lo la k)⟩ := by
  simp [reverse_geocode, hlo, hla, truthy, hk]

/-- Authenticated reverse-geocode with parameters: parsed-body case. -/
theorem regeo_auth_ok (uid : Nat) (lo la k : String) (hlo : lo ≠ "")
    (hla : la ≠ "") (hk : k ≠ "") (d : ReGeoData) :
    reverse_geocode (.authenticated uid) (some lo) (some la) (some k) (.ok d)
      = ⟨.json 200 (reverse_geocode_handle d), some (regeoRequest lo la k)⟩ := by
  simp [reverse_geocode, hlo, hla, truthy, hk]

/-- Authenticated POI search with parameters: transport exception case. -/
theorem poi_auth_exn (uid : Nat) (kw lc k : String) (hkw : kw ≠ "")
    (hlc : lc ≠ "") (hk : k ≠ "") (m : String) :
    search_poi (.authenticated uid) (some kw) (some lc) (some k) (.exn m)
      = ⟨.json 200 (.fail m), some (poiRequest kw lc k)⟩ := by
  simp [search_poi, hkw, hlc, truthy, hk]

/-- Authenticated POI search with parameters: parsed-body case. -/
theorem poi_auth_ok (uid : Nat) (kw lc k : String) (hkw : kw ≠ "")
    (hlc : lc ≠ "") (hk : k ≠ "") (d : PoiData) :
    search_poi (.authenticated uid) (some kw) (some lc) (some k) (.ok d)
      = ⟨.json 200 (search_poi_handle d), some (poiRequest kw lc k)⟩ := by
  simp [search_poi, hkw, hlc, truthy, hk]

/-- C3: for every authenticated, fully parameterized request to the three
API routes, the outcome of the upstream call is always resolved to one of
the defined envelopes with HTTP 200: a success- or failure-shaped body in
every case; the failure envelope carries the exception description on any
raised exception, and the provider info message (or the route fallback) on
a non-"1" provider status.  No exception escapes: every branch is a
response. -/
theorem gateway_outcome_always_enveloped (uid : Nat)
    (a lo la kw lc k : String) (ha : a ≠ "") (hlo : lo ≠ "") (hla : la ≠ "")
    (hkw : kw ≠ "") (hlc : lc ≠ "") (hk : k ≠ "") :
    (∀ up, ∃ b, geocode (.authenticated uid) (some a) (some k) up
        = ⟨.json 200 b, some (geocodeRequest a k)⟩
        ∧ (isSuccessBody b || isFailBody b) = true) ∧
    (∀ m, geocode (.authenticated uid) (some a) (some k) (.exn m)
        = ⟨.json 200 (.fail m), some (geocodeRequest a k)⟩) ∧
    (∀ d : GeoData, d.status ≠ "1" →
      geocode (.authenticated uid) (some a) (some k) (.ok d)
        = ⟨.json 200 (.fail (d.info.getD "地址解析失败")),
           some (geocodeRequest a k)⟩) ∧
    (∀ up, ∃ b,
      reverse_geocode (.authenticated uid) (some lo) (some la) (some k) up
        = ⟨.json 200 b, some (regeoRequest lo la k)⟩
        ∧ (isSuccessBody b || isFailBody b) = true) ∧
    (∀ m, reverse_geocode (.authenticated uid) (some lo) (some la) (some k)
        (.exn m)
        = ⟨.json 200 (.fail m), some (regeoRequest lo la k)⟩) ∧
    (∀ d : ReGeoData, d.status ≠ "1" →
      reverse_geocode (.authenticated uid) (some lo) (some la) (some k) (.ok d)
        = ⟨.json 200 (.fail (d.info.getD "逆地理编码失败")),
           some (regeoRequest lo la k)⟩) ∧
    (∀ up, ∃ b, search_poi (.authenticated uid) (some kw) (some lc) (some k) up
        = ⟨.json 200 b, some (poiRequest kw lc k)⟩
        ∧ (isSuccessBody b || isFailBody b) = true) ∧
    (∀ m, search_poi (.authenticated uid) (some kw) (some lc) (some k) (.exn m)
        = ⟨.json 200 (.fail m), some (poiRequest kw lc k)⟩) ∧
    (∀ d : PoiData, d.status ≠ "1" →
      search_poi (.authenticated uid) (some kw) (some lc) (some k) (.ok d)
        = ⟨.json 200 (.fail (d.info.getD "搜索失败")),
           some (poiRequest kw lc k)⟩) := by
  refine ⟨?_, fun m => geocode_auth_exn uid a k ha hk m, ?_, ?_,
    fun m => regeo_auth_exn uid lo la k hlo hla hk m, ?_, ?_,
    fun m => poi_auth_exn uid kw lc k hkw hlc hk m, ?_⟩
  · intro up
    cases up with
    | exn m => exact ⟨.fail m, geocode_auth_exn uid a k ha hk m, rfl⟩
    | ok d =>
      rcases geocode_handle_cases d with ⟨b, hb, hs⟩ | ⟨m, hm⟩
      · exact ⟨b, geocode_auth_ok uid a k ha hk d b hb, hs⟩
      · exact ⟨.fail m, geocode_auth_err uid a k ha hk d m hm, rfl⟩
  · intro d hd
    exact geocode_auth_ok uid a k ha hk d _ (geocode_handle_reject d hd)
  · intro up
    cases up with
    | exn m => exact ⟨.fail m, regeo_auth_exn uid lo la k hlo hla hk m, rfl⟩
    | ok d =>
      exact ⟨reverse_geocode_handle d, regeo_auth_ok uid lo la k hlo hla hk d,
        reverse_handle_shape d⟩
  · intro d hd
    rw [regeo_auth_ok uid lo la k hlo hla hk d]
    unfold reverse_geocode_handle
    rw [if_neg hd]
  · intro up
    cases up with
    | exn m => exact ⟨.fail m, poi_auth_exn uid kw lc k hkw hlc hk m, rfl⟩
    | ok d =>
      exact ⟨search_poi_handle d, poi_auth_ok uid kw lc k hkw hlc hk d,
        poi_handle_shape d⟩
  · intro d hd
    rw [poi_auth_ok uid kw lc k hkw hlc hk d]
    unfold search_poi_handle
    rw [if_neg hd]

/-- C3 witness: the envelope theorem applied at a concrete authenticated,
fully parameterized request. -/
theorem gateway_outcome_always_enveloped_witness :
    (("北京" : String) ≠ "" ∧ ("116.4" : String) ≠ "" ∧
      ("39.9" : String) ≠ "" ∧ ("咖啡" : String) ≠ "" ∧
      ("116.4,39.9" : String) ≠ "" ∧ ("svc" : String) ≠ "") ∧
    (∀ m, geocode (.authenticated 1) (some "北京") (some "svc") (.exn m)
      = ⟨.json 200 (.fail m), some (geocodeRequest "北京" "svc")⟩) :=
  ⟨⟨by decide, by decide, by decide, by decide, by decide, by decide⟩,
    (gateway_outcome_always_enveloped 1 "北京" "116.4" "39.9" "咖啡"
      "116.4,39.9" "svc" (by decide) (by decide) (by decide) (by decide)
      (by decide) (by decide)).2.1⟩

/-- The geocode try-block on a status-"1" body with a first candidate whose
location splits into two float-parsable pieces. -/
theorem geocode_handle_first (g0 : GeoCandidate) (rest : List GeoCandidate)
    (inf : Option String) (lngS latS : String)
    (hsplit : splitComma g0.location = [lngS, latS]) (lng lat : ℚ)
    (hlng : parseFloat lngS = some lng) (hlat : parseFloat latS = some lat) :
    geocode_handle ⟨"1", g0 :: rest, inf⟩
      = .ok (.geoOk lng lat g0.formatted_address (g0.district.getD "")) := by
  unfold geocode_handle
  dsimp only
  rw [if_pos rfl, hsplit]
  dsimp only
  rw [hlng, hlat]

/-- C4: every successful forward geocode (provider status "1", non-empty
candidate list, parsable first location) uses exactly the first candidate:
its lng,lat string is split at the comma and both pieces converted to
numbers, and its formatted_address and district are echoed into the success
envelope. -/
theorem geocode_first_candidate (uid : Nat) (a k : String) (ha : a ≠ "")
    (hk : k ≠ "") (g0 : GeoCandidate) (rest : List GeoCandidate)
    (inf : Option String) (lngS latS : String)
    (hsplit : splitComma g0.location = [lngS, latS]) (lng lat : ℚ)
    (hlng : parseFloat lngS = some lng) (hlat : parseFloat latS = some lat) :
    geocode (.authenticated uid) (some a) (some k) (.ok ⟨"1", g0 :: rest, inf⟩)
      = ⟨.json 200 (.geoOk lng lat g0.formatted_address (g0.district.getD "")),
         some (geocodeRequest a k)⟩ :=
  geocode_auth_ok uid a k ha hk _ _
    (geocode_handle_first g0 rest inf lngS latS hsplit lng lat hlng hlat)

/-- C4 witness: the provider returns status "1" with two candidates, the
first at location 116.4,39.9; the route answers with the first candidate
parsed to lng 116.4 and lat 39.9 and its address fields echoed. -/
theorem geocode_first_candidate_witness :
    (("北京" : String) ≠ "" ∧ ("svc" : String) ≠ "" ∧
      splitComma "116.4,39.9" = ["116.4", "39.9"] ∧
      parseFloat "116.4" = some (mkRat 1164 10) ∧
      parseFloat "39.9" = some (mkRat 399 10)) ∧
    geocode (.authenticated 1) (some "北京") (some "svc")
        (.ok ⟨"1", [⟨"116.4,39.9", "北京市东城区", some "东城区"⟩,
                    ⟨"0,0", "other", none⟩], none⟩)
      = ⟨.json 200 (.geoOk (mkRat 1164 10) (mkRat 399 10) "北京市东城区"
           "东城区"),
         some (geocodeRequest "北京" "svc")⟩ :=
  ⟨⟨by decide, by decide, by decide, by decide, by decide⟩,
    geocode_first_candidate 1 "北京" "svc" (by decide) (by decide)
      ⟨"116.4,39.9", "北京市东城区", some "东城区"⟩ [⟨"0,0", "other", none⟩]
      none "116.4" "39.9" (by decide) (mkRat 1164 10) (mkRat 399 10)
      (by decide) (by decide)⟩

/-- Any upstream call the geocode route makes is the one it builds from its
address parameter and key. -/
theorem geocode_call_shape (sess : Session) (a k : Option String)
    (up : HttpOutcome GeoData) :
    (geocode sess a k up).call = none ∨
    (geocode sess a k up).call
      = some (geocodeRequest (a.getD "") (k.getD "")) := by
  cases sess with
  | anonymous => exact Or.inl rfl
  | authenticated uid =>
    unfold geocode
    dsimp only
    split
    · exact Or.inl rfl
    · split
      · exact Or.inl rfl
      · cases up with
        | exn m => exact Or.inr rfl
        | ok d => cases h : geocode_handle d <;> simp [h]

/-- Any upstream call the reverse-geocode route makes is the one it builds
from its parameters and key. -/
theorem regeo_call_shape (sess : Session) (lo la k : Option String)
    (up : HttpOutcome ReGeoData) :
    (reverse_geocode sess lo la k up).call = none ∨
    (reverse_geocode sess lo la k up).call
      = some (regeoRequest (lo.getD "") (la.getD "") (k.getD "")) := by
  cases sess with
  | anonymous => exact Or.inl rfl
  | authenticated uid =>
    unfold reverse_geocode
    dsimp only
    split
    · exact Or.inl rfl
    · split
      · exact Or.inl rfl
      · cases up with
        | exn m => exact Or.inr rfl
        | ok d => exact Or.inr rfl

/-- Any upstream call the POI-search route makes is the one it builds from
its parameters and key. -/
theorem poi_call_shape (sess : Session) (kw lc k : Option String)
    (up : HttpOutcome PoiData) :
    (search_poi sess kw lc k up).call = none ∨
    (search_poi sess kw lc k up).call
      = some (poiRequest (kw.getD "") (lc.getD "") (k.getD "")) := by
  cases sess with
  | anonymous => exact Or.inl rfl
  | authenticated uid =>
    unfold search_poi
    dsimp only
    split
    · exact Or.inl rfl
    · split
      · exact Or.inl rfl
      · cases up with
        | exn m => exact Or.inr rfl
        | ok d => exact Or.inr rfl

/-- The output POI list copies each upstream POI's six fields unchanged. -/
theorem buildPois_id (ps : List Poi) : buildPois ps = ps := by
  induction ps with
  | nil => rfl
  | cons p t ih =>
    unfold buildPois at ih ⊢
    rw [List.map_cons, ih]

/-- C5: every upstream HTTP call made by any of the three routes carries the
explicit 10-second timeout; the POI-search call always sends the constants
radius 5000 and offset 20; and a successful POI search returns one output
entry per upstream POI with id, name, type, address, location and distance
preserved exactly. -/
theorem upstream_call_discipline :
    (∀ sess a k up req, (geocode sess a k up).call = some req →
      req.timeout = 10) ∧
    (∀ sess lo la k up req, (reverse_geocode sess lo la k up).call = some req →
      req.timeout = 10) ∧
    (∀ sess kw lc k up req, (search_poi sess kw lc k up).call = some req →
      req.timeout = 10 ∧ ("radius", "5000") ∈ req.params ∧
        ("offset", "20") ∈ req.params) ∧
    (∀ ps : List Poi, buildPois ps = ps) ∧
    (∀ (uid : Nat) (kw lc k : String) (ps : List Poi), kw ≠ "" → lc ≠ "" →
      k ≠ "" →
      search_poi (.authenticated uid) (some kw) (some lc) (some k)
          (.ok ⟨"1", some ps, none⟩)
        = ⟨.json 200 (.poiOk ps), some (poiRequest kw lc k)⟩) := by
  refine ⟨?_, ?_, ?_, buildPois_id, ?_⟩
  · intro sess a k up req hreq
    rcases geocode_call_shape sess a k up with h | h <;> rw [h] at hreq
    · cases hreq
    · cases hreq; rfl
  · intro sess lo la k up req hreq
    rcases regeo_call_shape sess lo la k up with h | h <;> rw [h] at hreq
    · cases hreq
    · cases hreq; rfl
  · intro sess kw lc k up req hreq
    rcases poi_call_shape sess kw lc k up with h | h <;> rw [h] at hreq
    · cases hreq
    · cases hreq
      exact ⟨rfl, by simp [poiRequest], by simp [poiRequest]⟩
  · intro uid kw lc k ps hkw hlc hk
    rw [poi_auth_ok uid kw lc k hkw hlc hk]
    unfold search_poi_handle
    dsimp only
    rw [if_pos rfl, Option.getD_some, buildPois_id]

/-- C5 witness: the discipline applied to a concrete POI search that is
actually performed, and to its concrete request value. -/
theorem upstream_call_discipline_witness :
    (("咖啡" : String) ≠ "" ∧ ("116.4,39.9" : String) ≠ "" ∧
      ("svc" : String) ≠ "") ∧
    search_poi (.authenticated 1) (some "咖啡") (some "116.4,39.9")
        (some "svc") (.ok ⟨"1", some [⟨"p1", "店", "cafe", "街1", "116.4,39.9",
          "120"⟩], none⟩)
      = ⟨.json 200 (.poiOk [⟨"p1", "店", "cafe", "街1", "116.4,39.9", "120"⟩]),
         some (poiRequest "咖啡" "116.4,39.9" "svc")⟩ ∧
    (poiRequest "咖啡" "116.4,39.9" "svc").timeout = 10 ∧
    ("radius", "5000") ∈ (poiRequest "咖啡" "116.4,39.9" "svc").params ∧
    ("offset", "20") ∈ (poiRequest "咖啡" "116.4,39.9" "svc").params :=
  ⟨⟨by decide, by decide, by decide⟩,
    upstream_call_discipline.2.2.2.2 1 "咖啡" "116.4,39.9" "svc"
      [⟨"p1", "店", "cafe", "街1", "116.4,39.9", "120"⟩] (by decide)
      (by decide) (by decide),
    upstream_call_discipline.2.2.1 (.authenticated 1) (some "咖啡")
      (some "116.4,39.9") (some "svc")
      (.ok ⟨"1", some [], none⟩) (poiRequest "咖啡" "116.4,39.9" "svc")
      (by rw [poi_auth_ok 1 "咖啡" "116.4,39.9" "svc" (by decide) (by decide)
        (by decide)])⟩

/-- C6 counterexample: with the web key absent (and everything else set)
`check_environment` reports failure, yet startup is not aborted — the
`__main__` block prints a warning and still reaches `app.run`. -/
theorem startup_missing_config_still_runs :
    check_environment cfgMissingKey = false ∧
    (main_startup cfgMissingKey).isAborted = false ∧
    main_startup cfgMissingKey = .running false := by
  refine ⟨by decide, by decide, by decide⟩

/-- C6 as amended: when a required environment variable is absent,
`check_environment` returns false with a non-empty list of missing
configurations (printed as a warning), but the process does not abort: it
continues to `app.run` in degraded mode. -/
theorem startup_warns_but_runs (c : Config)
    (h : check_environment c = false) :
    main_startup c = .running false ∧ missing_list c ≠ [] := by
  constructor
  · unfold main_startup
    rw [h]
  · intro hnil
    unfold check_environment at h
    rw [hnil] at h
    simp at h

/-- C6 witness: the amended startup behaviour at the concrete configuration
missing its web key. -/
theorem startup_warns_but_runs_witness :
    check_environment cfgMissingKey = false ∧
    (main_startup cfgMissingKey = .running false ∧
      missing_list cfgMissingKey ≠ []) :=
  ⟨by decide, startup_warns_but_runs cfgMissingKey (by decide)⟩

/-- C7 counterexample: a registration whose duplicate username appears only
between the pre-check and the INSERT (the race the spec requires to be
handled).  The failure is caught and no row is inserted, but the flash is
the generic registration-failed message carrying the constraint-violation
text — not the already-exists message the claim requires. -/
theorem register_race_flash_not_already_exists :
    (register .anonymous (some "alice") (some "bob@example.com")
        (some "secret1") (some "secret1") true [] [aliceRow] 2 id).resp
      = .render "register.html"
          [("注册失败: " ++ uniqueViolationMsg, "error")] ∧
    (register .anonymous (some "alice") (some "bob@example.com")
        (some "secret1") (some "secret1") true [] [aliceRow] 2 id).inserted
      = none ∧
    (register .anonymous (some "alice") (some "bob@example.com")
        (some "secret1") (some "secret1") true [] [aliceRow] 2 id).resp
      ≠ .render "register.html" [("用户名或邮箱已存在", "error")] := by
  refine ⟨by decide, by decide, by decide⟩

/-- C7 as amended: a registration with a username or email already present
never crashes and never inserts a row.  When the duplicate is visible to
the pre-check, the flash is the already-exists message; when it is only
detected at insert time (race), the INSERT failure is caught and rolled
back and the flash is the generic registration-failed message carrying the
exception text. -/
theorem register_duplicate_no_insert (u e p : String) (s race : Store)
    (nid : Nat) (hf : String → String) (hu : u ≠ "") (he : e ≠ "")
    (hp : 6 ≤ p.length) :
    (conflicts s u e = true →
      register .anonymous (some u) (some e) (some p) (some p) true s race
          nid hf
        = ⟨.render "register.html" [("用户名或邮箱已存在", "error")], none,
           ⟨1, 1⟩⟩) ∧
    (conflicts s u e = false → conflicts (s ++ race) u e = true →
      register .anonymous (some u) (some e) (some p) (some p) true s race
          nid hf
        = ⟨.render "register.html"
            [("注册失败: " ++ uniqueViolationMsg, "error")], none,
           ⟨1, 1⟩⟩) := by
  have hp' : p ≠ "" := by
    intro h0
    rw [h0] at hp
    simp at hp
  have hlen : ¬p.length < 6 := by omega
  constructor
  · intro hc
    simp [register, hu, he, hp', hlen, hc]
  · intro hc1 hc2
    simp [register, hu, he, hp', hlen, hc1, hc2]

/-- C7 witness: the amended duplicate behaviour at a concrete store where
the username is already taken at pre-check time. -/
theorem register_duplicate_no_insert_witness :
    (("alice" : String) ≠ "" ∧ ("bob@example.com" : String) ≠ "" ∧
      6 ≤ ("secret1" : String).length ∧
      conflicts [aliceRow] "alice" "bob@example.com" = true) ∧
    register .anonymous (some "alice") (some "bob@example.com")
        (some "secret1") (some "secret1") true [aliceRow] [] 2 id
      = ⟨.render "register.html" [("用户名或邮箱已存在", "error")], none,
         ⟨1, 1⟩⟩ :=
  ⟨⟨by decide, by decide, by decide, by decide⟩,
    (register_duplicate_no_insert "alice" "bob@example.com" "secret1"
      [aliceRow] [] 2 id (by decide) (by decide) (by decide)).1 (by decide)⟩

/-- C8: a login attempt with an unknown username and one with a known
username but failing password check produce identical results — the same
single flash message on the same rendered form, the same (anonymous)
session and the same connection accounting — so the response does not
reveal whether a username exists. -/
theorem login_indistinguishable (s : Store)
    (chk : String → Option String → Bool) (u1 u2 : String)
    (p1 p2 nx1 nx2 : Option String)
    (h1 : find_by_username s (some u1) = none) (r : UserRow)
    (h2 : find_by_username s (some u2) = some r)
    (h3 : chk r.password_hash p2 = false) :
    login .anonymous (some u1) p1 nx1 true none s chk
      = login .anonymous (some u2) p2 nx2 true none s chk ∧
    login .anonymous (some u1) p1 nx1 true none s chk
      = ⟨.render "login.html" [("用户名或密码错误", "error")], .anonymous,
         ⟨1, 1⟩⟩ := by
  refine ⟨?_, ?_⟩ <;> simp [login, h1, h2, h3]

/-- C8 witness: in a store holding only the user bob, an attempt with the
unknown username alice and an attempt with bob and a rejected password get
the same response. -/
theorem login_indistinguishable_witness :
    (find_by_username [bobRow] (some "alice") = none ∧
      find_by_username [bobRow] (some "bob") = some bobRow ∧
      (fun (_ : String) (_ : Option String) => false) bobRow.password_hash
        (some "wrong") = false) ∧
    (login .anonymous (some "alice") (some "pw1") none true none [bobRow]
        (fun _ _ => false)
      = login .anonymous (some "bob") (some "wrong") none true none [bobRow]
        (fun _ _ => false) ∧
      login .anonymous (some "alice") (some "pw1") none true none [bobRow]
        (fun _ _ => false)
      = ⟨.render "login.html" [("用户名或密码错误", "error")], .anonymous,
         ⟨1, 1⟩⟩) :=
  ⟨⟨by decide, by decide, rfl⟩,
    login_indistinguishable [bobRow] (fun _ _ => false) "alice" "bob"
      (some "pw1") (some "wrong") none none (by decide) bobRow (by decide)
      rfl⟩

/-- C9 counterexample: the health-check route opens a database connection
for its probe and never closes it, so not every route releases the
connections it acquires. -/
theorem health_check_leaks :
    (health_check true cfgFull).2.opened = 1 ∧
    (health_check true cfgFull).2.closed = 0 ∧
    (health_check true cfgFull).2.opened ≠ (health_check true cfgFull).2.closed := by
  refine ⟨by decide, by decide, by decide⟩

/-- C9 as amended: the user loader, login and register close their
connection on every exit path (validation failures, unknown user, wrong
password, query exceptions, duplicate races included), but the health-check
probe opens a connection it never closes. -/
theorem connection_release_discipline :
    (∀ dbUp qf s uid, (load_user dbUp qf s uid).stats.opened
      = (load_user dbUp qf s uid).stats.closed) ∧
    (∀ sess u p nx dbUp qf s chk, (login sess u p nx dbUp qf s chk).stats.opened
      = (login sess u p nx dbUp qf s chk).stats.closed) ∧
    (∀ sess u e p cp dbUp s race nid hf,
      (register sess u e p cp dbUp s race nid hf).stats.opened
      = (register sess u e p cp dbUp s race nid hf).stats.closed) ∧
    (∀ c, (health_check true c).2 = ⟨1, 0⟩) := by
  refine ⟨?_, ?_, ?_, fun c => rfl⟩
  · intro dbUp qf s uid
    cases dbUp with
    | false => rfl
    | true =>
      cases qf with
      | some m => rfl
      | none =>
        cases h : s.find? (fun r => r.id == uid) <;> simp [load_user, h]
  · intro sess u p nx dbUp qf s chk
    cases sess with
    | authenticated uid => rfl
    | anonymous =>
      cases dbUp with
      | false => rfl
      | true =>
        cases qf with
        | some m => rfl
        | none =>
          cases h : find_by_username s u with
          | none => simp [login, h]
          | some r =>
            cases hc : chk r.password_hash p <;> simp [login, h, hc]
  · intro sess u e p cp dbUp s race nid hf
    cases sess with
    | authenticated uid => rfl
    | anonymous =>
      unfold register
      dsimp only
      repeat' split
      all_goals rfl

/-- C10: an authenticated, fully parameterized request to any of the three
API routes with the service key unset returns the soft failure envelope
(success false, configuration-missing message) with HTTP 200 and never
contacts the upstream provider. -/
theorem missing_service_key_soft_failure (uid : Nat) (a lo la kw lc : String)
    (ha : a ≠ "") (hlo : lo ≠ "") (hla : la ≠ "") (hkw : kw ≠ "")
    (hlc : lc ≠ "") (k : Option String) (hk : truthy k = false) :
    (∀ up, geocode (.authenticated uid) (some a) k up
      = ⟨.json 200 (.fail "高德API配置缺失"), none⟩) ∧
    (∀ up, reverse_geocode (.authenticated uid) (some lo) (some la) k up
      = ⟨.json 200 (.fail "高德API配置缺失"), none⟩) ∧
    (∀ up, search_poi (.authenticated uid) (some kw) (some lc) k up
      = ⟨.json 200 (.fail "高德API配置缺失"), none⟩) := by
  refine ⟨fun up => ?_, fun up => ?_, fun up => ?_⟩
  · simp [geocode, ha, hk]
  · simp [reverse_geocode, hlo, hla, hk]
  · simp [search_poi, hkw, hlc, hk]

/-- C10 witness: the soft failure at concrete parameters with no service
key configured. -/
theorem missing_service_key_soft_failure_witness :
    (("北京" : String) ≠ "" ∧ ("116.4" : String) ≠ "" ∧
      ("39.9" : String) ≠ "" ∧ ("咖啡" : String) ≠ "" ∧
      ("116.4,39.9" : String) ≠ "" ∧ truthy none = false) ∧
    (∀ up, geocode (.authenticated 1) (some "北京") none up
      = ⟨.json 200 (.fail "高德API配置缺失"), none⟩) ∧
    (∀ up, reverse_geocode (.authenticated 1) (some "116.4") (some "39.9")
        none up
      = ⟨.json 200 (.fail "高德API配置缺失"), none⟩) ∧
    (∀ up, search_poi (.authenticated 1) (some "咖啡") (some "116.4,39.9")
        none up
      = ⟨.json 200 (.fail "高德API配置缺失"), none⟩) :=
  ⟨⟨by decide, by decide, by decide, by decide, by decide, rfl⟩,
    missing_service_key_soft_failure 1 "北京" "116.4" "39.9" "咖啡"
      "116.4,39.9" (by decide) (by decide) (by decide) (by decide)
      (by decide) none rfl⟩

end MapApi
